import Mathlib

/-!
# Verification of the `Mujyosi/analytics` event-collection service

Shallow embedding of the Python analytics server (`app/ip_utils.py`,
`app/endpoints.py`, `app/utils.py`, `app/database.py`, `app/redis_client.py`)
and proofs about it.  External effects (Redis, PostgreSQL, the HTTP geo
resolver, the `user_agents` library, `json.loads`, `hashlib.sha256`) are
modelled as explicit oracle parameters; the repository's own control flow is
translated faithfully from the source.
-/

namespace Analytics

/-! ## Python-truthiness helpers

Python `if x:` on `Optional[str]` / `Optional[int]` values: `None`, `""` and
`0` are falsy.  Used by the cache-write guards in `endpoints.py` line 33 and
`ip_utils.py` line 138. -/

def pyTruthyStr : Option String → Bool
  | none => false
  | some s => !s.isEmpty

def pyTruthyInt : Option Int → Bool
  | none => false
  | some n => n != 0

/-! ## IP metadata record

`ip_utils.py` builds the metadata dict with keys country/asn/device/browser/os
(`get_ip_metadata`, lines 62-75). -/

structure Metadata where
  country : Option String
  asn : Option Int
  device : Option String
  browser : Option String
  os : Option String
deriving DecidableEq, Repr

/-- The initial dict of `get_ip_metadata`: every field `None`.  Also the
empty dict `{}` that `deserialize_metadata` returns on a JSON decode error
(every `.get` on it yields `None`). -/
def emptyMetadata : Metadata :=
  { country := none, asn := none, device := none, browser := none, os := none }

/-! ## ASN extraction (`ip_utils.py` lines 87-99)

`re.search(r'AS(\d+)', org)` scans the string left to right and matches at the
first position where `A`, `S` and at least one digit follow; the capture group
`(\d+)` is the maximal digit run after that `AS`.  `int` on the captured digit
string is total. -/

/-- Numeric value of a digit string (big-endian decimal fold). -/
def digitsVal (l : List Char) : Nat :=
  l.foldl (fun acc c => acc * 10 + (c.toNat - 48)) 0

/-- Attempt of `AS(\d+)` at the current position: `A`, `S`, then at least one
digit; the capture group is the maximal digit run after `AS`. -/
def asMatchHead : List Char → Option Nat
  | a :: b :: c :: rest =>
    if a = 'A' ∧ b = 'S' ∧ c.isDigit then
      some (digitsVal (c :: rest.takeWhile Char.isDigit))
    else none
  | _ => none

/-- `re.search(r'AS(\d+)', s)` on the character list of `s`: the regex engine
tries the pattern at each start position left to right and returns the first
match's captured number. -/
def findAS : List Char → Option Nat
  | [] => none
  | a :: rest =>
    match asMatchHead (a :: rest) with
    | some v => some v
    | none => findAS rest

/-- ASN parsing of the `org` field in `get_ip_metadata`:
`org = data.get("org", "")`; `if org:` then `re.search(r'AS(\d+)', org)`;
on a match, `int(match.group(1))` (always a digit string, so the
`except (ValueError, TypeError)` branch is dead); otherwise `None`. -/
def parseOrgAsn (org : String) : Option Int :=
  if org.isEmpty then none
  else (findAS org.data).map (fun n => (n : Int))

/-- Modelled from the spec: "extract ASN by pattern-matching a *leading*
`AS<digits>` token" — the pattern is tried only at position 0 of the
organisation string.  Compared against `parseOrgAsn`, which is translated
from the code. -/
def leadingAsnSpec (org : String) : Option Int :=
  (asMatchHead org.data).map (fun n => (n : Int))

/-- Decidable "the string contains an `AS<digits>` pattern somewhere":
some position has `A`, `S`, then a digit. -/
def hasASPattern (l : List Char) : Bool :=
  match l with
  | [] => false
  | a :: rest => (asMatchHead (a :: rest)).isSome || hasASPattern rest

/-! ## Local / private address classification (`ip_utils.py` lines 33-59)

Strings are handled at the character-list level so that `ip.split('.')` and
`int(part)` can be modelled faithfully.  `pyDigits?` models Python `int()` on
the canonical digit strings that dotted-quad addresses contain; Python's
`int()` additionally accepts surrounding whitespace, a sign and underscores,
which would only make `_is_local_ip` accept *more* strings and is irrelevant
to the claims proved here (which assert acceptance, never rejection). -/

/-- Python `str.split('.')`: split on every `'.'`, keeping empty pieces. -/
def splitOnDot : List Char → List (List Char)
  | [] => [[]]
  | c :: rest =>
    if c = '.' then [] :: splitOnDot rest
    else
      match splitOnDot rest with
      | [] => [[c]]
      | p :: ps => (c :: p) :: ps

/-- Python `int(part)` restricted to plain decimal digit strings: `some` of
the value on a non-empty all-digit string, `none` (a `ValueError`) otherwise. -/
def pyDigits? (l : List Char) : Option Nat :=
  if l ≠ [] ∧ l.all Char.isDigit then some (digitsVal l) else none

/-- `IPUtils._is_local_ip`: exact `"127.0.0.1"` / `"::1"`, then for dotted
strings with exactly 4 parts, first/second octet range checks
(10.x.x.x, 172.16-31.x.x, 192.168.x.x, 169.254.x.x); a `ValueError` from
`int()` on either of the first two parts is caught and yields `False`. -/
def isLocalIp (ip : String) : Bool :=
  if ip = "127.0.0.1" then true
  else if ip = "::1" then true
  else if ip.data.contains '.' then
    match splitOnDot ip.data with
    | [p1, p2, _, _] =>
      match pyDigits? p1, pyDigits? p2 with
      | some first, some second =>
        if first = 10 then true
        else if first = 172 ∧ 16 ≤ second ∧ second ≤ 31 then true
        else if first = 192 ∧ second = 168 then true
        else if first = 169 ∧ second = 254 then true
        else false
      | _, _ => false
    | _ => false
  else false

/-- Canonical decimal digits of a natural number (no sign, no leading zeros),
used to range over dotted-quad addresses in the statements below. -/
def natDigits (n : Nat) : List Char :=
  if _h : n < 10 then [Nat.digitChar n]
  else natDigits (n / 10) ++ [Nat.digitChar (n % 10)]
decreasing_by exact Nat.div_lt_self (by omega) (by omega)

/-- The dotted-quad string `a.b.c.d` with canonical decimal octets. -/
def ipString (a b c d : Nat) : String :=
  ⟨natDigits a ++ '.' :: (natDigits b ++ '.' :: (natDigits c ++ '.' :: natDigits d))⟩

/-! ## Geo resolution (`ip_utils.py` lines 61-107)

The HTTPS request to ipinfo is an oracle: `Except Unit HttpResp` is the
outcome of `client.get(url)` + `res.json()` (`.error` = any exception, caught
by the outer `except`).  `org` is `Option String` because `data.get("org", "")`
defaults a missing field to `""`. -/

structure HttpResp where
  status : Nat
  country : Option String
  org : Option String
deriving DecidableEq, Repr

/-- `IPUtils.get_ip_metadata`: local addresses short-circuit to
`country="Local"` before any network access; otherwise on HTTP 200 the
country is copied and the ASN parsed from `org`; on any other status or on an
exception the all-`None` dict is returned.  The second component records
whether the network path was entered. -/
def get_ip_metadata (ip : String) (net : Except Unit HttpResp) : Metadata × Bool :=
  if isLocalIp ip then
    ({ emptyMetadata with country := some "Local" }, false)
  else
    match net with
    | .error _ => (emptyMetadata, true)
    | .ok r =>
      if r.status = 200 then
        ({ emptyMetadata with
            country := r.country
            asn := parseOrgAsn (r.org.getD "") }, true)
      else (emptyMetadata, true)

/-! ## User-agent classification (`ip_utils.py` lines 19-31)

The `user_agents` library is external; its parse outcome is the oracle
`Except Unit UAInfo` (`.error` = the `except` branch).  `family` fields are
plain strings; Python `x[:50] if x else None` maps `""` to `None`. -/

structure UAInfo where
  is_mobile : Bool
  is_tablet : Bool
  browser_family : String
  os_family : String
deriving DecidableEq, Repr

structure UAParsed where
  device : Option String
  browser : Option String
  os : Option String
deriving DecidableEq, Repr

/-- The device expression of `parse_user_agent`:
`"mobile" if ua.is_mobile else ("tablet" if ua.is_tablet else "desktop")`. -/
def deviceOf (is_mobile is_tablet : Bool) : String :=
  if is_mobile then "mobile" else if is_tablet then "tablet" else "desktop"

/-- Modelled from the spec: "tablet takes precedence over generic mobile
detection, desktop is the default".  Compared against `deviceOf`, which is
translated from the code. -/
def deviceSpecPrecedence (is_mobile is_tablet : Bool) : String :=
  if is_tablet then "tablet" else if is_mobile then "mobile" else "desktop"

/-- `IPUtils.parse_user_agent`: on parse success the device expression and the
truncated family strings, on exception the all-`None` dict. -/
def parse_user_agent (o : Except Unit UAInfo) : UAParsed :=
  match o with
  | .error _ => { device := none, browser := none, os := none }
  | .ok ua =>
    { device := some (deviceOf ua.is_mobile ua.is_tablet)
      browser := if ua.browser_family.isEmpty then none
                 else some (ua.browser_family.take 50)
      os := if ua.os_family.isEmpty then none
            else some (ua.os_family.take 50) }

/-- A parse outcome of the external user-agent library with both the mobile
and the tablet flag set. -/
def bothFlagsUA : UAInfo :=
  { is_mobile := true, is_tablet := true, browser_family := "Safari", os_family := "iOS" }

/-- A parse outcome with only the tablet flag set. -/
def tabletOnlyUA : UAInfo :=
  { is_mobile := false, is_tablet := true, browser_family := "Safari", os_family := "iOS" }

/-! ## Redis wrappers (`redis_client.py`)

`RedisClient.get` / `RedisClient.set` wrap every call in `try/except` and
return `None` / `False` on any Redis exception, so cache failures never
propagate.  The underlying client call is the oracle. -/

/-- `RedisClient.get`: the client call may raise (`.error`) — logged and
turned into `None` — or return the stored string / `None` on a miss. -/
def redisGet (o : Except Unit (Option String)) : Option String :=
  match o with
  | .ok v => v
  | .error _ => none

/-- `RedisClient.set`: the client `setex` may raise — logged and turned into
`False`. -/
def redisSet (o : Except Unit Bool) : Bool :=
  match o with
  | .ok b => b
  | .error _ => false

/-! ## Metadata (de)serialisation (`ip_utils.py` lines 109-120)

`json.loads` is external; the parse of a cached string is the oracle
`jsonParse : String → Option Metadata` (`none` = `json.JSONDecodeError`;
valid-JSON values that are not objects are outside the claims considered
here). -/

/-- `IPUtils.deserialize_metadata`: `json.loads` result, or the empty dict
`{}` when decoding raises. -/
def deserialize_metadata (jsonParse : String → Option Metadata) (s : String) :
    Metadata :=
  (jsonParse s).getD emptyMetadata

/-! ## Cache writes -/

/-- One `setex`-style cache write: the key and the serialised metadata.
(The TTL — `settings.cache_ttl_days = 14` days in `redis_client.py`,
`cache_ttl = 604800` seconds in `get_cached_or_fetch` — plays no role in the
claims and is not recorded.) -/
structure CacheWrite where
  key : String
  value : Metadata
deriving DecidableEq, Repr

/-! ## Endpoint-side cached enrichment (`endpoints.py` lines 16-40)

`hashFn` is `IPUtils.hash_ip` (`hashlib.sha256(...).hexdigest()`), an external
hash kept abstract. -/

/-- `get_ip_metadata_cached`: look up Redis under the *hashed* IP; a truthy
hit is deserialised and returned; on a miss fetch from the resolver and write
back iff `metadata["country"] or metadata["asn"]` is truthy.  Returns the
metadata together with the list of cache writes performed. -/
def get_ip_metadata_cached (jsonParse : String → Option Metadata)
    (hashFn : String → String) (ip : String)
    (cacheReadO : Except Unit (Option String)) (net : Except Unit HttpResp) :
    Metadata × List CacheWrite :=
  let hashed := hashFn ip
  let cached := redisGet cacheReadO
  match cached with
  | some s =>
    if !s.isEmpty then (deserialize_metadata jsonParse s, [])
    else
      let meta := (get_ip_metadata ip net).1
      if pyTruthyStr meta.country || pyTruthyInt meta.asn then
        (meta, [{ key := hashed, value := meta }])
      else (meta, [])
  | none =>
    let meta := (get_ip_metadata ip net).1
    if pyTruthyStr meta.country || pyTruthyInt meta.asn then
      (meta, [{ key := hashed, value := meta }])
    else (meta, [])

/-! ## Utility-side cached enrichment (`ip_utils.py` lines 122-147) -/

/-- `IPUtils.get_cached_or_fetch`: `cache_key = f"ip_metadata:{ip_address}"`;
with a cache client, a truthy hit is deserialised and returned (a read error
is caught and falls through); otherwise fetch, and `setex` iff
`metadata.get("country")` is truthy.  Returns the metadata and the writes. -/
def get_cached_or_fetch (jsonParse : String → Option Metadata) (ip : String)
    (useCache : Bool) (cacheReadO : Except Unit (Option String))
    (net : Except Unit HttpResp) : Metadata × List CacheWrite :=
  let cache_key := "ip_metadata:" ++ ip
  let hit : Option String :=
    if useCache then
      match cacheReadO with
      | .ok (some s) => if !s.isEmpty then some s else none
      | _ => none
    else none
  match hit with
  | some s => (deserialize_metadata jsonParse s, [])
  | none =>
    let meta := (get_ip_metadata ip net).1
    if useCache && pyTruthyStr meta.country then
      (meta, [{ key := cache_key, value := meta }])
    else (meta, [])

/-! ## Session table and `update_session` (`utils.py` lines 31-91)

Rows of the `sessions` table (`database.py` `create_sessions_table`); the
`id` column is a `SERIAL PRIMARY KEY`, `page_count INTEGER` (nullable in
the schema, hence `Option Int`).  Timestamps are integer seconds;
`INTERVAL '30 minutes'` is 1800 seconds and `NOW()` is the `now` parameter. -/

structure SessionRow where
  id : Nat
  hashed_ip : String
  session_id : Option String
  session_start : Int
  session_end : Option Int
  page_count : Option Int
deriving DecidableEq, Repr

/-- `sanitize_int` (`utils.py` lines 31-38) restricted to the values an
`INTEGER` column can hold: `None` stays `None`, an integer is returned
unchanged (the `""` / unparsable branches cannot arise from the column). -/
def sanitize_int : Option Int → Option Int
  | none => none
  | some n => some n

/-- The `WHERE` clause of the session lookup: scope by `session_id` when the
payload provided one, else by `hashed_ip`; `session_end IS NULL`; and
`session_start > NOW() - INTERVAL '30 minutes'`. -/
def sessionMatches (sid : Option String) (hip : String) (now : Int)
    (r : SessionRow) : Bool :=
  (match sid with
   | some t => r.session_id == some t
   | none => r.hashed_ip == hip)
  && r.session_end == none
  && decide (r.session_start > now - 1800)

/-- `ORDER BY session_start DESC LIMIT 1` over the matching rows: the row
with maximal `session_start` (SQL leaves the order of ties unspecified; the
model keeps the earliest-listed of equal timestamps). -/
def pickActive (sid : Option String) (hip : String) (now : Int)
    (tbl : List SessionRow) : Option SessionRow :=
  (tbl.filter (sessionMatches sid hip now)).foldl
    (fun acc r =>
      match acc with
      | none => some r
      | some m => if r.session_start > m.session_start then some r else some m)
    none

/-- `update_session(hashed_ip, session_id, db)`: if the lookup finds an
active session, `UPDATE sessions SET page_count = sanitize_int(pc) + 1 WHERE
id = ...` (a `None` count would make the Python `+ 1` raise; the transaction
then rolls back, leaving the table unchanged).  Otherwise `UPDATE ... SET
session_end = NOW() WHERE hashed_ip = ... AND session_end IS NULL` followed by
`INSERT ... VALUES (hashed_ip, session_id, 1)` (fresh serial `nextId`,
`session_start DEFAULT NOW()`, `session_end` null). -/
def update_session (hip : String) (sid : Option String) (now : Int)
    (nextId : Nat) (tbl : List SessionRow) : List SessionRow :=
  match pickActive sid hip now tbl with
  | some s =>
    match sanitize_int s.page_count with
    | some n =>
      tbl.map (fun r => if r.id == s.id then { r with page_count := some (n + 1) } else r)
    | none => tbl
  | none =>
    (tbl.map (fun r =>
      if r.hashed_ip == hip && r.session_end == none then
        { r with session_end := some now }
      else r))
    ++ [{ id := nextId, hashed_ip := hip, session_id := sid,
          session_start := now, session_end := none, page_count := some 1 }]

/-! ## Background-task scheduling (`endpoints.py` line 88)

`background_tasks.add_task(update_session, hashed_ip, db)` records the
callable and its positional arguments; Starlette later calls
`update_session(*args)`.  `update_session` is declared
`async def update_session(hashed_ip, session_id, db)` — three parameters. -/

inductive TaskArg where
  | str (s : String)
  | dbHandle
deriving DecidableEq, Repr

/-- The positional arguments `collect_event` schedules for `update_session`:
exactly `(hashed_ip, db)`. -/
def collectEventTaskArgs (hashedIp : String) : List TaskArg :=
  [.str hashedIp, .dbHandle]

/-- Outcome of calling `update_session(*args)`: either the three parameters
`(hashed_ip, session_id, db)` get bound positionally, or Python raises
`TypeError` for a wrong argument count. -/
inductive SessionCallOutcome where
  | bound (hashedIp sessionId dbArg : TaskArg)
  | typeError
deriving DecidableEq, Repr

/-- Positional binding of `update_session`'s three parameters. -/
def bindUpdateSessionCall (args : List TaskArg) : SessionCallOutcome :=
  match args with
  | [a, b, c] => .bound a b c
  | _ => .typeError

/-! ## The `/collect` endpoint (`endpoints.py` lines 42-95)

The whole body sits in one `try/except` that maps any exception to an
HTTP 500.  Every step before the `INSERT` is exception-free: the Redis
wrappers swallow their errors, `get_ip_metadata` and `parse_user_agent` catch
internally.  The `INSERT ... RETURNING id` (and the commit of its
transaction) is the oracle `insertO`; on success the function returns
`{"status": "ok", ...}` after scheduling the background task. -/

structure EventPayload where
  page_id : String
  url : String
  action : String
  referrer : Option String
  session_id : Option String
  user_agent : Option String
deriving DecidableEq, Repr

/-- The row written to the `events` table by `collect_event`. -/
structure EventRow where
  hashed_ip : String
  country : Option String
  asn : Option Int
  device : Option String
  browser : Option String
  os : Option String
  page_id : String
  url : String
  action : String
  referrer : Option String
deriving DecidableEq, Repr

/-- Result of one `/collect` call: the HTTP response (`.error` carries the
status code of the raised `HTTPException`), the rows actually persisted, and
the background task scheduled on success. -/
structure CollectResult where
  response : Except Nat (String × String)
  insertedRows : List EventRow
  scheduledTasks : List (List TaskArg)
deriving Repr

/-- `collect_event`: hash the IP, enrich via `get_ip_metadata_cached`, parse
the user agent when the payload has one (`user_agent_info = {}` otherwise, so
every `.get` yields `None`), insert the event row, schedule
`update_session` with `(hashed_ip, db)`, and answer `{"status": "ok"}`; any
exception — in the model only the insert can raise — becomes a 500. -/
def collect_event (jsonParse : String → Option Metadata)
    (hashFn : String → String) (payload : EventPayload) (ip : String)
    (cacheReadO : Except Unit (Option String)) (net : Except Unit HttpResp)
    (uaParseO : Except Unit UAInfo) (insertO : Except Unit Nat) :
    CollectResult :=
  let hashed := hashFn ip
  let meta := (get_ip_metadata_cached jsonParse hashFn ip cacheReadO net).1
  let ua : UAParsed :=
    match payload.user_agent with
    | some _ => parse_user_agent uaParseO
    | none => { device := none, browser := none, os := none }
  let row : EventRow :=
    { hashed_ip := hashed
      country := meta.country
      asn := meta.asn
      device := ua.device
      browser := ua.browser
      os := ua.os
      page_id := payload.page_id
      url := payload.url
      action := payload.action
      referrer := payload.referrer }
  match insertO with
  | .ok _ =>
    { response := .ok ("ok", "Event recorded")
      insertedRows := [row]
      scheduledTasks := [collectEventTaskArgs hashed] }
  | .error _ =>
    { response := .error 500
      insertedRows := []
      scheduledTasks := [] }

/-! ## Transactional cursor scope (`database.py` lines 14-42)

`get_cursor` nests in `get_connection`:
`psycopg2.connect` (may raise), `conn.cursor()` (may raise), `yield cursor`,
`conn.commit()` on normal return (may raise) / `conn.rollback()` plus
re-raise on exception, `cursor.close()` in the inner `finally`,
`conn.close()` in the outer `finally` (skipped only when `conn` is `None`). -/

inductive DbAction where
  | connect
  | openCursor
  | commit
  | rollback
  | closeCursor
  | closeConn
deriving DecidableEq, Repr

/-- One run of `with db.get_cursor() as cursor: body`, as the list of
successful operations in order plus the overall outcome.  `connectOk` /
`cursorOk` / `commitOk` say whether `psycopg2.connect`, `conn.cursor()` and
`conn.commit()` succeed; `body` is the outcome of the enclosed block. -/
def get_cursor_run (connectOk cursorOk commitOk : Bool)
    (body : Except Unit Unit) : List DbAction × Except Unit Unit :=
  if !connectOk then
    ([], .error ())
  else if !cursorOk then
    ([.connect, .closeConn], .error ())
  else
    match body with
    | .ok _ =>
      if commitOk then
        ([.connect, .openCursor, .commit, .closeCursor, .closeConn], .ok ())
      else
        ([.connect, .openCursor, .rollback, .closeCursor, .closeConn], .error ())
    | .error _ =>
      ([.connect, .openCursor, .rollback, .closeCursor, .closeConn], .error ())

/-! ## Helper lemmas -/

theorem digitChar_isDigit {d : Nat} (h : d < 10) : (Nat.digitChar d).isDigit = true := by
  interval_cases d <;> decide

theorem digitChar_toNat {d : Nat} (h : d < 10) : (Nat.digitChar d).toNat = 48 + d := by
  interval_cases d <;> decide

theorem digitChar_ne_dot {d : Nat} (h : d < 10) : Nat.digitChar d ≠ '.' := by
  interval_cases d <;> decide

theorem digitsVal_append_digit (xs : List Char) (c : Char) :
    digitsVal (xs ++ [c]) = digitsVal xs * 10 + (c.toNat - 48) := by
  simp [digitsVal, List.foldl_append]

theorem natDigits_ne_nil (n : Nat) : natDigits n ≠ [] := by
  unfold natDigits
  split
  · simp
  · simp

theorem natDigits_all_digit (n : Nat) : ∀ c ∈ natDigits n, c.isDigit = true := by
  induction n using Nat.strong_induction_on with
  | _ n ih =>
    unfold natDigits
    split
    · next h =>
      intro c hc
      simp only [List.mem_singleton] at hc
      exact hc ▸ digitChar_isDigit h
    · next h =>
      intro c hc
      rcases List.mem_append.mp hc with h1 | h2
      · exact ih (n / 10) (Nat.div_lt_self (by omega) (by omega)) c h1
      · simp only [List.mem_singleton] at h2
        exact h2 ▸ digitChar_isDigit (Nat.mod_lt _ (by omega))

theorem natDigits_no_dot (n : Nat) : '.' ∉ natDigits n := by
  intro hmem
  have := natDigits_all_digit n '.' hmem
  exact absurd this (by decide)

theorem digitsVal_natDigits (n : Nat) : digitsVal (natDigits n) = n := by
  induction n using Nat.strong_induction_on with
  | _ n ih =>
    unfold natDigits
    split
    · next h =>
      simp [digitsVal, digitChar_toNat h]
    · next h =>
      rw [digitsVal_append_digit, ih (n / 10) (Nat.div_lt_self (by omega) (by omega)),
        digitChar_toNat (Nat.mod_lt _ (by omega))]
      omega

theorem pyDigits?_natDigits (n : Nat) : pyDigits? (natDigits n) = some n := by
  have hall : (natDigits n).all Char.isDigit = true :=
    List.all_eq_true.mpr (fun c hc => natDigits_all_digit n c hc)
  simp [pyDigits?, natDigits_ne_nil n, hall, digitsVal_natDigits]

theorem splitOnDot_no_dot (xs : List Char) (h : '.' ∉ xs) : splitOnDot xs = [xs] := by
  induction xs with
  | nil => rfl
  | cons c rest ih =>
    have hc : ¬ c = '.' := fun hc => h (hc ▸ List.mem_cons_self c rest)
    have hrest : '.' ∉ rest := fun hr => h (List.mem_cons_of_mem c hr)
    simp only [splitOnDot, if_neg hc, ih hrest]

theorem splitOnDot_append_dot (xs ys : List Char) (h : '.' ∉ xs) :
    splitOnDot (xs ++ '.' :: ys) = xs :: splitOnDot ys := by
  induction xs with
  | nil => simp [splitOnDot]
  | cons c rest ih =>
    have hc : ¬ c = '.' := fun hc => h (hc ▸ List.mem_cons_self c rest)
    have hrest : '.' ∉ rest := fun hr => h (List.mem_cons_of_mem c hr)
    simp only [List.cons_append, splitOnDot, if_neg hc, List.append_eq, ih hrest]

theorem splitOnDot_ipString (a b c d : Nat) :
    splitOnDot (ipString a b c d).data
      = [natDigits a, natDigits b, natDigits c, natDigits d] := by
  show splitOnDot (natDigits a ++ '.' :: (natDigits b ++ '.' :: (natDigits c ++ '.' :: natDigits d)))
      = _
  rw [splitOnDot_append_dot _ _ (natDigits_no_dot a),
    splitOnDot_append_dot _ _ (natDigits_no_dot b),
    splitOnDot_append_dot _ _ (natDigits_no_dot c),
    splitOnDot_no_dot _ (natDigits_no_dot d)]

theorem ipString_contains_dot (a b c d : Nat) :
    (ipString a b c d).data.contains '.' = true := by
  have : '.' ∈ (ipString a b c d).data := by
    show '.' ∈ natDigits a ++ '.' :: (natDigits b ++ '.' :: (natDigits c ++ '.' :: natDigits d))
    exact List.mem_append.mpr (Or.inr (List.mem_cons_self _ _))
  simpa [List.contains] using this

theorem asMatchHead_none_of_not_head (l : List Char)
    (h : (asMatchHead l).isSome = false) : asMatchHead l = none := by
  cases hm : asMatchHead l with
  | none => rfl
  | some v => rw [hm] at h; simp at h

theorem findAS_eq_none_of_no_pattern (l : List Char)
    (h : hasASPattern l = false) : findAS l = none := by
  induction l with
  | nil => rfl
  | cons a rest ih =>
    unfold hasASPattern at h
    rw [Bool.or_eq_false_iff] at h
    unfold findAS
    rw [asMatchHead_none_of_not_head _ h.1]
    exact ih h.2

theorem isLocalIp_ipString (a b c d : Nat)
    (hrange : a = 10 ∨ (a = 172 ∧ 16 ≤ b ∧ b ≤ 31) ∨ (a = 192 ∧ b = 168) ∨
      (a = 169 ∧ b = 254)) :
    isLocalIp (ipString a b c d) = true := by
  have hsplit := splitOnDot_ipString a b c d
  unfold isLocalIp
  split
  · rfl
  · split
    · rfl
    · simp only [ipString_contains_dot, if_true, hsplit, pyDigits?_natDigits]
      rcases hrange with h | ⟨h1, h2, h3⟩ | ⟨h1, h2⟩ | ⟨h1, h2⟩
      · simp [h]
      · subst h1
        rw [if_neg (by omega), if_pos ⟨rfl, h2, h3⟩]
      · subst h1; subst h2
        rw [if_neg (by omega), if_neg (by omega), if_pos ⟨rfl, rfl⟩]
      · subst h1; subst h2
        rw [if_neg (by omega), if_neg (by omega), if_neg (by omega), if_pos ⟨rfl, rfl⟩]

theorem get_ip_metadata_of_local (ip : String) (h : isLocalIp ip = true)
    (net : Except Unit HttpResp) :
    get_ip_metadata ip net = ({ emptyMetadata with country := some "Local" }, false) := by
  simp [get_ip_metadata, h]

/-! ## Claims -/

/-- C5: every address in the listed local/private ranges (127.0.0.1, ::1,
10.x.x.x, 172.16-31.x.x, 192.168.x.x, 169.254.x.x) is classified as local by
`_is_local_ip`, and `get_ip_metadata` on it returns `country="Local"` with
ASN absent without entering the network path (second component `false`). -/
theorem C5_local_addresses (a b c d : Nat) (net : Except Unit HttpResp)
    (hrange : a = 10 ∨ (a = 172 ∧ 16 ≤ b ∧ b ≤ 31) ∨ (a = 192 ∧ b = 168) ∨
      (a = 169 ∧ b = 254)) :
    (isLocalIp (ipString a b c d) = true ∧
      get_ip_metadata (ipString a b c d) net
        = ({ emptyMetadata with country := some "Local" }, false)) ∧
    (isLocalIp "127.0.0.1" = true ∧
      get_ip_metadata "127.0.0.1" net
        = ({ emptyMetadata with country := some "Local" }, false)) ∧
    (isLocalIp "::1" = true ∧
      get_ip_metadata "::1" net
        = ({ emptyMetadata with country := some "Local" }, false)) := by
  have h1 := isLocalIp_ipString a b c d hrange
  refine ⟨⟨h1, get_ip_metadata_of_local _ h1 net⟩,
    ⟨by decide, get_ip_metadata_of_local "127.0.0.1" (by decide) net⟩,
    ⟨by decide, get_ip_metadata_of_local "::1" (by decide) net⟩⟩

/-- Witness for C5 at the concrete address 172.20.1.2 (a 172.16-31.x.x
address) with a failing network oracle. -/
theorem C5_local_addresses_witness :
    isLocalIp (ipString 172 20 1 2) = true ∧
    get_ip_metadata (ipString 172 20 1 2) (.error ())
      = ({ emptyMetadata with country := some "Local" }, false) :=
  (C5_local_addresses 172 20 1 2 (.error ())
    (Or.inr (Or.inl ⟨rfl, by omega, by omega⟩))).1

/-- C6 counterexample: the claim says the ASN is extracted by matching a
*leading* `AS<digits>` token, but `re.search` matches anywhere: on the
organisation string `"Google LLC AS15169"` the code extracts 15169 while a
leading-token match extracts nothing. -/
theorem C6_asn_leading_counterexample :
    parseOrgAsn "Google LLC AS15169" = some 15169 ∧
    leadingAsnSpec "Google LLC AS15169" = none := by
  exact ⟨by decide, by decide⟩

/-- C6 (amended): the ASN is extracted by matching the first `AS<digits>`
occurrence *anywhere* in the organisation string: `"AS15169 Google LLC"`
yields 15169 (and so does `"Google LLC AS15169"`), while an empty string or
one without an `AS<digits>` pattern leaves the ASN absent — never zero and
never an exception (the extraction is a total function into `Option`). -/
theorem C6_asn_extraction (org : String) (h : hasASPattern org.data = false) :
    parseOrgAsn "AS15169 Google LLC" = some 15169 ∧
    parseOrgAsn "Google LLC AS15169" = some 15169 ∧
    parseOrgAsn "" = none ∧
    parseOrgAsn org = none := by
  refine ⟨by decide, by decide, by decide, ?_⟩
  unfold parseOrgAsn
  rw [findAS_eq_none_of_no_pattern org.data h]
  split <;> rfl

/-- Witness for C6 at the pattern-free organisation string
`"Google LLC"`. -/
theorem C6_asn_extraction_witness :
    hasASPattern "Google LLC".data = false ∧ parseOrgAsn "Google LLC" = none :=
  ⟨by decide, (C6_asn_extraction "Google LLC" (by decide)).2.2.2⟩

/-- C7 counterexample: the claim says tablet takes precedence over generic
mobile detection, but the device expression tests `is_mobile` first: on a
parse outcome with both flags set the code yields `"mobile"`, not
`"tablet"`. -/
theorem C7_device_precedence_counterexample :
    (parse_user_agent (.ok bothFlagsUA)).device = some "mobile" ∧
    deviceSpecPrecedence true true = "tablet" ∧
    ("mobile" : String) ≠ "tablet" := by
  exact ⟨by decide, by decide, by decide⟩

/-- C7 (amended): for every user-agent string that parses successfully the
device field is exactly one of mobile/tablet/desktop, where *mobile* takes
precedence over tablet detection and desktop is the default when neither
flag is set. -/
theorem C7_device_classification (o : Except Unit UAInfo) (ua : UAInfo)
    (h : o = .ok ua) :
    ((parse_user_agent o).device = some "mobile" ∨
      (parse_user_agent o).device = some "tablet" ∨
      (parse_user_agent o).device = some "desktop") ∧
    (ua.is_mobile = true → (parse_user_agent o).device = some "mobile") ∧
    (ua.is_mobile = false → ua.is_tablet = true →
      (parse_user_agent o).device = some "tablet") ∧
    (ua.is_mobile = false → ua.is_tablet = false →
      (parse_user_agent o).device = some "desktop") := by
  subst h
  cases hm : ua.is_mobile <;> cases ht : ua.is_tablet <;>
    simp [parse_user_agent, deviceOf, hm, ht]

/-- Witness for C7 at a successful parse with only the tablet flag set. -/
theorem C7_device_classification_witness :
    (parse_user_agent (.ok tabletOnlyUA)).device = some "tablet" :=
  (C7_device_classification (.ok tabletOnlyUA) tabletOnlyUA rfl).2.2.1 rfl rfl

/-- C2: `collect_event` schedules `update_session` with only the two
positional arguments `(hashed_ip, db)`, although `update_session` takes
`(hashed_ip, session_id, db)`: the payload's session token is never passed
(binding the call raises `TypeError`), also on a concrete `/collect` run
whose payload carries the session token `"tok-123"`. -/
theorem C2_task_args_mismatch :
    bindUpdateSessionCall (collectEventTaskArgs "deadbeef") = .typeError ∧
    (collectEventTaskArgs "deadbeef").length = 2 ∧
    TaskArg.str "tok-123" ∉ collectEventTaskArgs "deadbeef" ∧
    (collect_event (fun _ => none) (fun s => s)
        { page_id := "p", url := "u", action := "view", referrer := none,
          session_id := some "tok-123", user_agent := none }
        "1.2.3.4" (.ok none) (.error ()) (.error ()) (.ok 1)).scheduledTasks
      = [[TaskArg.str "1.2.3.4", TaskArg.dbHandle]] := by
  exact ⟨rfl, rfl, by decide, rfl⟩

/-- C1: `update_session` follows the spec's state machine.  If the lookup
(scoped by the session token when given, else by the hashed identity;
`session_end` null; `session_start` within the last 30 minutes; most recent
first) finds an active session with page count `n`, exactly that row's page
count becomes `n + 1` and nothing else changes (same length, all other rows
untouched).  If it finds none, every still-open row of the hashed identity
gets `session_end = now`, all other rows are untouched, and a single new row
with page count 1 and null `session_end` is appended. -/
theorem C1_update_session (hip : String) (sid : Option String) (now : Int)
    (nextId : Nat) (tbl : List SessionRow) :
    (∀ s n, pickActive sid hip now tbl = some s → s.page_count = some n →
      (update_session hip sid now nextId tbl).length = tbl.length ∧
      ∀ k : Nat, (update_session hip sid now nextId tbl)[k]? =
        (tbl[k]?).map (fun r =>
          if r.id = s.id then { r with page_count := some (n + 1) } else r)) ∧
    (pickActive sid hip now tbl = none →
      (update_session hip sid now nextId tbl).length = tbl.length + 1 ∧
      (∀ k : Nat, k < tbl.length → (update_session hip sid now nextId tbl)[k]? =
        (tbl[k]?).map (fun r =>
          if r.hashed_ip = hip ∧ r.session_end = none then
            { r with session_end := some now }
          else r)) ∧
      (update_session hip sid now nextId tbl)[tbl.length]? =
        some { id := nextId, hashed_ip := hip, session_id := sid,
               session_start := now, session_end := none, page_count := some 1 }) := by
  constructor
  · intro s n hfind hpc
    unfold update_session
    simp only [hfind, hpc, sanitize_int]
    refine ⟨by simp, ?_⟩
    intro k
    rw [List.getElem?_map]
    cases h : tbl[k]? with
    | none => rfl
    | some r => simp [beq_iff_eq]
  · intro hnone
    unfold update_session
    rw [hnone]
    refine ⟨by simp, ?_, ?_⟩
    · intro k hk
      rw [List.getElem?_append_left (by simpa using hk), List.getElem?_map]
      cases h : tbl[k]? with
      | none => rfl
      | some r => simp [Bool.and_eq_true, beq_iff_eq]
    · rw [List.getElem?_append_right (by simp)]
      simp

/-- Witness for C1: both branches at a concrete one-row table of identity
`"h"` at `now = 10000`.  In the first table the session started 200 s ago, so
the lookup finds it and its page count goes from 3 to 4; in the second it
started 3000 s ago (outside the 30-minute window), so the lookup misses, the
open row is closed and a fresh row with page count 1 is appended. -/
theorem C1_update_session_witness :
    pickActive none "h" 10000
        [{ id := 1, hashed_ip := "h", session_id := none, session_start := 9800,
           session_end := none, page_count := some 3 }]
      = some { id := 1, hashed_ip := "h", session_id := none, session_start := 9800,
               session_end := none, page_count := some 3 } ∧
    (update_session "h" none 10000 7
        [{ id := 1, hashed_ip := "h", session_id := none, session_start := 9800,
           session_end := none, page_count := some 3 }])[0]?
      = some { id := 1, hashed_ip := "h", session_id := none, session_start := 9800,
               session_end := none, page_count := some 4 } ∧
    pickActive none "h" 10000
        [{ id := 1, hashed_ip := "h", session_id := none, session_start := 7000,
           session_end := none, page_count := some 3 }]
      = none ∧
    (update_session "h" none 10000 7
        [{ id := 1, hashed_ip := "h", session_id := none, session_start := 7000,
           session_end := none, page_count := some 3 }])[0]?
      = some { id := 1, hashed_ip := "h", session_id := none, session_start := 7000,
               session_end := some 10000, page_count := some 3 } ∧
    (update_session "h" none 10000 7
        [{ id := 1, hashed_ip := "h", session_id := none, session_start := 7000,
           session_end := none, page_count := some 3 }])[1]?
      = some { id := 7, hashed_ip := "h", session_id := none, session_start := 10000,
               session_end := none, page_count := some 1 } := by
  refine ⟨by decide, ?_, by decide, ?_, ?_⟩
  · have h := (C1_update_session "h" none 10000 7
        [{ id := 1, hashed_ip := "h", session_id := none, session_start := 9800,
           session_end := none, page_count := some 3 }]).1
        { id := 1, hashed_ip := "h", session_id := none, session_start := 9800,
          session_end := none, page_count := some 3 } 3 (by decide) rfl
    rw [h.2 0]
    decide
  · have h := (C1_update_session "h" none 10000 7
        [{ id := 1, hashed_ip := "h", session_id := none, session_start := 7000,
           session_end := none, page_count := some 3 }]).2 (by decide)
    rw [h.2.1 0 (by decide)]
    decide
  · have h := (C1_update_session "h" none 10000 7
        [{ id := 1, hashed_ip := "h", session_id := none, session_start := 7000,
           session_end := none, page_count := some 3 }]).2 (by decide)
    exact h.2.2

/-- C3 counterexample: the claim says enrichment cache writes are keyed by
the hashed identity and never contain the raw IP, but
`IPUtils.get_cached_or_fetch` builds `cache_key = f"ip_metadata:{ip_address}"`
from the raw address: on a miss for `8.8.8.8` it writes under
`"ip_metadata:8.8.8.8"`, which contains the raw IP as a substring. -/
theorem C3_cache_key_counterexample :
    (get_cached_or_fetch (fun _ => none) "8.8.8.8" true (.ok none)
        (.ok { status := 200, country := some "US", org := some "AS15169 Google LLC" })).2
      = [{ key := "ip_metadata:8.8.8.8",
           value := { emptyMetadata with country := some "US", asn := some 15169 } }] ∧
    List.IsInfix "8.8.8.8".data "ip_metadata:8.8.8.8".data := by
  exact ⟨by decide, by decide⟩

/-- C3 (amended): every cache write performed by the endpoint helper
`get_ip_metadata_cached` is keyed by the hashed identity of the IP, while
every cache write performed by the utility `IPUtils.get_cached_or_fetch` is
keyed by `"ip_metadata:" + raw IP`, a key containing the raw address. -/
theorem C3_cache_keys (jsonParse : String → Option Metadata)
    (hashFn : String → String) (ip : String)
    (cacheReadO : Except Unit (Option String)) (net : Except Unit HttpResp)
    (useCache : Bool) :
    ((get_ip_metadata_cached jsonParse hashFn ip cacheReadO net).2.all
      (fun w => w.key == hashFn ip)) = true ∧
    ((get_cached_or_fetch jsonParse ip useCache cacheReadO net).2.all
      (fun w => w.key == "ip_metadata:" ++ ip)) = true := by
  constructor
  · unfold get_ip_metadata_cached
    cases hc : redisGet cacheReadO with
    | none => simp only []; split <;> simp
    | some s => simp only []; split <;> [skip; split] <;> simp
  · unfold get_cached_or_fetch
    simp only []
    split <;> [simp; skip]
    split <;> simp

/-- C4 counterexample: the claim says fetched metadata is cached iff at least
one of country or ASN is non-absent, but `get_cached_or_fetch` tests only
`metadata.get("country")`: on a miss whose fetch yields no country but
ASN 15169, nothing is written. -/
theorem C4_cache_write_counterexample :
    (get_cached_or_fetch (fun _ => none) "9.9.9.9" true (.ok none)
        (.ok { status := 200, country := none, org := some "AS15169 Quad9" })).1.asn
      = some 15169 ∧
    (get_cached_or_fetch (fun _ => none) "9.9.9.9" true (.ok none)
        (.ok { status := 200, country := none, org := some "AS15169 Quad9" })).2
      = [] := by
  exact ⟨by decide, by decide⟩

/-- C4 (amended): on a cache miss followed by a resolver call, the endpoint
helper `get_ip_metadata_cached` writes the fetched metadata iff country or
ASN is truthy (non-absent and non-empty / non-zero), whereas
`IPUtils.get_cached_or_fetch` writes iff the country alone is truthy — the
ASN is ignored there; in either path the fetched metadata is returned to the
caller whether or not it was cached. -/
theorem C4_cache_write_condition (jsonParse : String → Option Metadata)
    (hashFn : String → String) (ip : String) (net : Except Unit HttpResp) :
    ((get_ip_metadata_cached jsonParse hashFn ip (.ok none) net).2 = []
      ↔ (pyTruthyStr (get_ip_metadata ip net).1.country
          || pyTruthyInt (get_ip_metadata ip net).1.asn) = false) ∧
    ((get_cached_or_fetch jsonParse ip true (.ok none) net).2 = []
      ↔ pyTruthyStr (get_ip_metadata ip net).1.country = false) ∧
    (get_ip_metadata_cached jsonParse hashFn ip (.ok none) net).1
      = (get_ip_metadata ip net).1 ∧
    (get_cached_or_fetch jsonParse ip true (.ok none) net).1
      = (get_ip_metadata ip net).1 := by
  refine ⟨?_, ?_, ?_, ?_⟩
  · unfold get_ip_metadata_cached
    simp only [redisGet]
    cases hcond : (pyTruthyStr (get_ip_metadata ip net).1.country
        || pyTruthyInt (get_ip_metadata ip net).1.asn) <;> simp [hcond]
  · unfold get_cached_or_fetch
    cases hcond : pyTruthyStr (get_ip_metadata ip net).1.country <;> simp [hcond]
  · unfold get_ip_metadata_cached
    simp only [redisGet]
    cases hcond : (pyTruthyStr (get_ip_metadata ip net).1.country
        || pyTruthyInt (get_ip_metadata ip net).1.asn) <;> simp [hcond]
  · unfold get_cached_or_fetch
    cases hcond : pyTruthyStr (get_ip_metadata ip net).1.country <;> simp [hcond]

/-- C8: the `/collect` call reports failure (HTTP 500) iff persisting the
event row fails; failures of the cache read, the geo resolver or the
user-agent parse (all quantified oracles here, including their `.error`
outcomes) never change the response. -/
theorem C8_failure_iff_insert (jsonParse : String → Option Metadata)
    (hashFn : String → String) (payload : EventPayload) (ip : String)
    (cacheReadO : Except Unit (Option String)) (net : Except Unit HttpResp)
    (uaParseO : Except Unit UAInfo) (insertO : Except Unit Nat) :
    ((collect_event jsonParse hashFn payload ip cacheReadO net uaParseO insertO).response
      = .error 500 ↔ insertO = .error ()) ∧
    ((collect_event jsonParse hashFn payload ip cacheReadO net uaParseO insertO).response
      = .ok ("ok", "Event recorded") ↔ insertO ≠ .error ()) := by
  cases insertO with
  | ok n => simp [collect_event]
  | error e => cases e; simp [collect_event]

/-- C9: a scoped `get_cursor` acquisition (connection and cursor obtained)
commits when the body returns normally, rolls back and re-raises when the
body raises, never both, and closes the cursor and the connection on every
exit path. -/
theorem C9_cursor_scope (commitOk : Bool) (body : Except Unit Unit) :
    (body = .ok () → commitOk = true →
      DbAction.commit ∈ (get_cursor_run true true commitOk body).1 ∧
      DbAction.rollback ∉ (get_cursor_run true true commitOk body).1 ∧
      (get_cursor_run true true commitOk body).2 = .ok ()) ∧
    (body = .error () →
      DbAction.rollback ∈ (get_cursor_run true true commitOk body).1 ∧
      DbAction.commit ∉ (get_cursor_run true true commitOk body).1 ∧
      (get_cursor_run true true commitOk body).2 = .error ()) ∧
    DbAction.closeCursor ∈ (get_cursor_run true true commitOk body).1 ∧
    DbAction.closeConn ∈ (get_cursor_run true true commitOk body).1 := by
  cases body with
  | ok u => cases u; cases commitOk <;> simp [get_cursor_run]
  | error e => cases e; cases commitOk <;> simp [get_cursor_run]

/-- Witness for C9: a run whose body and commit succeed commits, does not
roll back, and reports success. -/
theorem C9_cursor_scope_witness :
    DbAction.commit ∈ (get_cursor_run true true true (.ok ())).1 ∧
    DbAction.rollback ∉ (get_cursor_run true true true (.ok ())).1 ∧
    (get_cursor_run true true true (.ok ())).2 = .ok () :=
  (C9_cursor_scope true (.ok ())).1 rfl rfl

/-- C10: a cache hit whose stored string is not valid JSON deserialises to
the empty dict instead of raising, so the event is recorded with country and
ASN absent and the call still succeeds (given the insert succeeds). -/
theorem C10_corrupted_cache (jsonParse : String → Option Metadata)
    (hashFn : String → String) (payload : EventPayload) (ip s : String)
    (net : Except Unit HttpResp) (uaParseO : Except Unit UAInfo) (n : Nat)
    (hbad : jsonParse s = none) (hne : s.isEmpty = false) :
    deserialize_metadata jsonParse s = emptyMetadata ∧
    (collect_event jsonParse hashFn payload ip (.ok (some s)) net uaParseO
        (.ok n)).response = .ok ("ok", "Event recorded") ∧
    (collect_event jsonParse hashFn payload ip (.ok (some s)) net uaParseO
        (.ok n)).insertedRows.all
      (fun r => r.country == none && r.asn == none) = true ∧
    (collect_event jsonParse hashFn payload ip (.ok (some s)) net uaParseO
        (.ok n)).insertedRows.length = 1 := by
  have hdes : deserialize_metadata jsonParse s = emptyMetadata := by
    simp [deserialize_metadata, hbad]
  have hmeta : (get_ip_metadata_cached jsonParse hashFn ip (.ok (some s)) net).1
      = emptyMetadata := by
    unfold get_ip_metadata_cached
    simp [redisGet, hne, hdes]
  refine ⟨hdes, ?_, ?_, ?_⟩ <;> simp [collect_event, hmeta, emptyMetadata]

/-- Witness for C10: a concrete corrupted cache entry `"corrupt"` under a
parse oracle that rejects every string. -/
theorem C10_corrupted_cache_witness :
    deserialize_metadata (fun _ => none) "corrupt" = emptyMetadata ∧
    (collect_event (fun _ => none) (fun h => h)
        { page_id := "p", url := "u", action := "view", referrer := none,
          session_id := none, user_agent := none }
        "1.2.3.4" (.ok (some "corrupt")) (.error ()) (.error ())
        (.ok 1)).response = .ok ("ok", "Event recorded") ∧
    (collect_event (fun _ => none) (fun h => h)
        { page_id := "p", url := "u", action := "view", referrer := none,
          session_id := none, user_agent := none }
        "1.2.3.4" (.ok (some "corrupt")) (.error ()) (.error ())
        (.ok 1)).insertedRows.all
      (fun r => r.country == none && r.asn == none) = true ∧
    (collect_event (fun _ => none) (fun h => h)
        { page_id := "p", url := "u", action := "view", referrer := none,
          session_id := none, user_agent := none }
        "1.2.3.4" (.ok (some "corrupt")) (.error ()) (.error ())
        (.ok 1)).insertedRows.length = 1 :=
  C10_corrupted_cache (fun _ => none) (fun h => h)
    { page_id := "p", url := "u", action := "view", referrer := none,
      session_id := none, user_agent := none }
    "1.2.3.4" "corrupt" (.error ()) (.error ()) 1 rfl rfl

end Analytics
